import Mathlib

/-!
Verification of the country-directory aggregation-and-rendering core.

The data model (`src/collectors/models.py`) and the renderer
(`src/renderer.py`) are shallowly embedded below:

* Python `str` becomes `String`, Python `int` becomes `Int` (or `Nat`
  where the value is known non-negative), Python `float` values become
  exact rationals `ℚ` (the rational a stored double denotes).
* Pydantic models become structures together with explicit constructor
  functions returning `Except String _`: a constructor checks exactly the
  field constraints the source declares and nothing more.
* Python `set` fields are embedded as lists in iteration order: within a
  single process, iterating the same set twice yields the same order, so
  a fixed list captures one run's view of the set.
* Fallible construction returns `Except`; the renderer is total.
* The wall clock is passed explicitly (`now`, in seconds) where the
  source calls `datetime.utcnow()`.
-/

set_option maxRecDepth 8000

/-- Python's `sep.join(items)`: empty for no items, no trailing separator. -/
def joinSep (sep : String) : List String → String
  | [] => ""
  | [s] => s
  | s :: rest => s ++ sep ++ joinSep sep rest

/-- Zero-pad a natural number to two decimal digits, as Python's `%H`/`%M`
and two-digit fraction printing do. -/
def pad2 (n : Nat) : String :=
  if n < 10 then "0" ++ toString n else toString n

/-- Zero-pad a natural number to three decimal digits (the width of a
thousands group produced by Python's `{:,}` format). -/
def pad3 (n : Nat) : String :=
  if n < 10 then "00" ++ toString n
  else if n < 100 then "0" ++ toString n
  else toString n

/-- Pointwise maximum of two width lists (used for table column widths). -/
def zipMax : List Nat → List Nat → List Nat
  | [], ys => ys
  | xs, [] => xs
  | x :: xs, y :: ys => max x y :: zipMax xs ys

/-- A cell padded to a column width with one space of margin on each side. -/
def cellPad (w : Nat) (s : String) : String :=
  " " ++ s ++ String.mk (List.replicate (w - s.length + 1) ' ')

/-- One horizontal border line of a `simple_grid` table. -/
def borderLine (l m r : String) (ws : List Nat) : String :=
  l ++ String.intercalate m (ws.map (fun w => String.mk (List.replicate (w + 2) '─'))) ++ r

/-- Model of the external `tabulate(rows, tablefmt="simple_grid")` call:
an executable box-drawing grid renderer. The exact grid characters are an
external formatting concern of the `tabulate` library; the claims below
depend only on which rows feed which grid, never on the glyphs. -/
def tabulate (rows : List (List String)) : String :=
  let ws := rows.foldl (fun acc row => zipMax acc (row.map String.length)) []
  let renderRow := fun (row : List String) =>
    "│" ++ String.intercalate "│" (List.zipWith cellPad ws row) ++ "│"
  let top := borderLine "┌" "┬" "┐" ws
  let mid := borderLine "├" "┼" "┤" ws
  let bot := borderLine "└" "┴" "┘" ws
  top ++ "\n"
    ++ String.intercalate ("\n" ++ mid ++ "\n") (rows.map renderRow)
    ++ "\n" ++ bot

/-- Model of Python's `str()` applied to a float-valued field at the
table boundary (latitude, area, temperature, …). The claims never
inspect these characters; any injective decimal rendering serves. -/
def pyFloat (q : ℚ) : String := toString q

/-- Model of Python's f-string rendering of an `Optional[float]`:
`None` prints as the literal string `None`. -/
def pyOptFloat : Option ℚ → String
  | none => "None"
  | some q => pyFloat q

/-- `CurrencyInfoDTO`: a currency, carrying only its ISO code
(`models.py`, class `CurrencyInfoDTO`). -/
structure CurrencyInfoDTO where
  code : String
deriving DecidableEq, Repr

/-- `LanguagesInfoDTO`: a language name and its native name
(`models.py`, class `LanguagesInfoDTO`). -/
structure LanguagesInfoDTO where
  name : String
  native_name : String
deriving DecidableEq, Repr

/-- `LocationDTO`: capital plus alpha-2 country code
(`models.py`, class `LocationDTO`). -/
structure LocationDTO where
  capital : String
  alpha2code : String
deriving DecidableEq, Repr

/-- Pydantic construction of `LocationDTO`: the source declares
`alpha2code: str = Field(min_length=2, max_length=2)`, so construction
fails with a ValidationError exactly when the code's length is not 2. -/
def mkLocationDTO (capital alpha2code : String) : Except String LocationDTO :=
  if alpha2code.length < 2 then
    .error "ValidationError: alpha2code too short"
  else if 2 < alpha2code.length then
    .error "ValidationError: alpha2code too long"
  else
    .ok { capital := capital, alpha2code := alpha2code }

/-- `CountryDTO`: full country record (`models.py`, class `CountryDTO`).
The `currencies` and `languages` sets are embedded as lists in iteration
order; `area` is `Optional[float]`. -/
structure CountryDTO where
  capital : String
  alpha2code : String
  alt_spellings : List String
  currencies : List CurrencyInfoDTO
  flag : String
  languages : List LanguagesInfoDTO
  name : String
  population : Int
  subregion : String
  timezones : List String
  area : Option ℚ
  latitude : ℚ
  longitude : ℚ
deriving DecidableEq, Repr

/-- Pydantic construction of `CountryDTO`: the source declares plain
typed fields (`alpha2code: str`, `population: int`, …) with no `Field`
constraints, so construction of well-typed data always succeeds. -/
def mkCountryDTO (capital alpha2code : String) (alt_spellings : List String)
    (currencies : List CurrencyInfoDTO) (flag : String)
    (languages : List LanguagesInfoDTO) (name : String) (population : Int)
    (subregion : String) (timezones : List String) (area : Option ℚ)
    (latitude longitude : ℚ) : Except String CountryDTO :=
  .ok { capital := capital, alpha2code := alpha2code,
        alt_spellings := alt_spellings, currencies := currencies,
        flag := flag, languages := languages, name := name,
        population := population, subregion := subregion,
        timezones := timezones, area := area,
        latitude := latitude, longitude := longitude }

/-- `CurrencyRatesDTO`: exchange rates against a base currency
(`models.py`, class `CurrencyRatesDTO`); the `rates` dict is embedded as
an association list in iteration order. -/
structure CurrencyRatesDTO where
  base : String
  date : String
  rates : List (String × ℚ)
deriving DecidableEq, Repr

/-- `WeatherInfoDTO`: weather snapshot (`models.py`, class
`WeatherInfoDTO`); `timezone` is the UTC offset in seconds. -/
structure WeatherInfoDTO where
  temp : ℚ
  pressure : Int
  humidity : Int
  wind_speed : ℚ
  description : String
  visibility : Int
  timezone : Int
  latitude : ℚ
  longitude : ℚ
deriving DecidableEq, Repr

/-- `NewsDTO`: one news item (`models.py`, class `NewsDTO`);
`published_at` is kept as its ISO timestamp string. -/
structure NewsDTO where
  source : String
  title : String
  description : Option String
  published_at : String
  url : String
deriving DecidableEq, Repr

/-- `LocationInfoDTO`: the aggregate report (`models.py`, class
`LocationInfoDTO`); `currency_rates` is embedded as an association list
in dict iteration order. -/
structure LocationInfoDTO where
  location : CountryDTO
  weather : WeatherInfoDTO
  currency_rates : List (String × ℚ)
  news : List NewsDTO
deriving DecidableEq, Repr

/-- First value bound to a key in an association list (Python dict lookup). -/
def lookupRate (code : String) : List (String × ℚ) → Option ℚ
  | [] => none
  | (k, v) :: rest => if k = code then some v else lookupRate code rest

/-- Modelled from the spec: the Aggregate Builder is not among the
source files (only the value types and the renderer are), so its
`currency_rates` derivation follows §4.2 of the spec: for each Currency
in `Country.currencies`, look up its code in `ExchangeRates.rates` and
include only keys present in both; a currency with no rate is silently
omitted; news passes through unmodified. -/
def buildLocationInfo (country : CountryDTO) (weather : WeatherInfoDTO)
    (rates : CurrencyRatesDTO) (news : List NewsDTO) : LocationInfoDTO :=
  { location := country,
    weather := weather,
    currency_rates :=
      country.currencies.filterMap
        (fun c => (lookupRate c.code rates.rates).map (fun r => (c.code, r))),
    news := news }

namespace Renderer

/-- `Renderer._format_languages`: join `"name (native_name)"` over the
language set with `", "` (`renderer.py`, lines 89–99). -/
def format_languages (location_info : LocationInfoDTO) : String :=
  joinSep ", "
    (location_info.location.languages.map
      (fun item => item.name ++ " (" ++ item.native_name ++ ")"))

/-- Decimal digit grouping performed by Python's `"{:,}".format(n)` on a
natural number: groups of three from the right, later groups zero-padded
to width 3 (the separator is substituted below). -/
def groupThousands (n : Nat) : String :=
  if _h : n < 1000 then toString n
  else groupThousands (n / 1000) ++ "." ++ pad3 (n % 1000)
termination_by n
decreasing_by
  exact Nat.div_lt_self (by omega) (by omega)

/-- `Renderer._format_population`: `"{:,}".format(population)` followed by
`.replace(",", ".")` (`renderer.py`, lines 101–109); Python renders a
negative int with a leading minus and groups its absolute value. -/
def format_population (location_info : LocationInfoDTO) : String :=
  if location_info.location.population < 0 then
    "-" ++ groupThousands location_info.location.population.natAbs
  else
    groupThousands location_info.location.population.toNat

/-- The integer of hundredths computed by
`Decimal(x).quantize(exp=Decimal('.01'), rounding=ROUND_HALF_UP)` on the
exact value `q` of the float `x`: nearest multiple of 1/100, ties away
from zero (`renderer.py`, line 119). -/
def decimalQuantizeHalfUp (q : ℚ) : Int :=
  if q < 0 then -⌊(-q) * 100 + 1 / 2⌋ else ⌊q * 100 + 1 / 2⌋

/-- The string Python prints for the quantized two-place `Decimal`
(sign, integer part, point, two fractional digits; the sign of a
negative zero is preserved, as `Decimal` does). -/
def format_rate (q : ℚ) : String :=
  let n := decimalQuantizeHalfUp q
  let a := n.natAbs
  (if q < 0 then "-" else "") ++ toString (a / 100) ++ "." ++ pad2 (a % 100)

/-- `Renderer._format_currency_rates`: format each `(currency, rate)`
pair as `"<code> = <amount> руб."` and join with `", "`
(`renderer.py`, lines 111–121). -/
def format_currency_rates (location_info : LocationInfoDTO) : String :=
  joinSep ", "
    (location_info.currency_rates.map
      (fun p => p.1 ++ " = " ++ format_rate p.2 ++ " руб."))

/-- `Renderer._format_timezone`: the f-string
`"UTC+0{timezone // (60 * 60)}:00"` (`renderer.py`, lines 123–130);
Python's `//` is floor division, hence `Int.fdiv`. -/
def format_timezone (location_info : LocationInfoDTO) : String :=
  "UTC+0" ++ toString (Int.fdiv location_info.weather.timezone (60 * 60)) ++ ":00"

/-- `Renderer._format_current_time`: `utcnow() + timedelta(seconds=tz)`
rendered as 24-hour `"HH:MM"` (`renderer.py`, lines 132–141); `now` is
the wall-clock instant in seconds since the epoch, made explicit. -/
def format_current_time (now : Int) (location_info : LocationInfoDTO) : String :=
  let t := now + location_info.weather.timezone
  let secs := Int.emod t 86400
  pad2 (Int.fdiv secs 3600).toNat ++ ":" ++ pad2 ((Int.emod secs 3600).fdiv 60).toNat

/-- The `location` rows of `Renderer.render` (`renderer.py`, lines 33–43). -/
def locationRows (now : Int) (location_info : LocationInfoDTO) : List (List String) :=
  [["Страна", location_info.location.name],
   ["Столица", location_info.location.capital],
   ["Регион", location_info.location.subregion],
   ["Языки", format_languages location_info],
   ["Население страны", format_population location_info ++ " чел."],
   ["Площадь страны", pyOptFloat location_info.location.area ++ " кв.км"],
   ["Часовой пояс", format_timezone location_info],
   ["Текущее время", format_current_time now location_info],
   ["Курсы валют", format_currency_rates location_info]]

/-- The `capital` rows of `Renderer.render` (`renderer.py`, lines 45–49). -/
def capitalRows (location_info : LocationInfoDTO) : List (List String) :=
  [["Столица", location_info.location.capital],
   ["Широта", pyFloat location_info.location.latitude],
   ["Долгота", pyFloat location_info.location.longitude]]

/-- The `weather` rows of `Renderer.render` (`renderer.py`, lines 51–56). -/
def weatherRows (location_info : LocationInfoDTO) : List (List String) :=
  [["Погода", location_info.weather.description],
   ["Температура", pyFloat location_info.weather.temp ++ " °C"],
   ["Видимость", toString location_info.weather.visibility ++ " м"],
   ["Скорость ветра", pyFloat location_info.weather.wind_speed ++ " м/с"]]

/-- `Renderer.render` (`renderer.py`, lines 26–69): three row lists are
tabulated and returned interleaved with the three fixed section titles. -/
def render (now : Int) (location_info : LocationInfoDTO) : List String :=
  let location_table := tabulate (locationRows now location_info)
  let capital_table := tabulate (capitalRows location_info)
  let weather_table := tabulate (weatherRows location_info)
  ["Информация о стране", location_table,
   "Информация о столице", capital_table,
   "Информация о погоде", weather_table]

end Renderer

/-- The EUR currency from the `models.py` docstring examples. -/
def sampleCurrencyEUR : CurrencyInfoDTO := { code := "EUR" }

/-- The Swedish language entry from the `models.py` docstring examples. -/
def sampleLanguageSwedish : LanguagesInfoDTO :=
  { name := "Swedish", native_name := "svenska" }

/-- The Åland Islands country record from the `models.py` docstring example. -/
def sampleCountry : CountryDTO :=
  { capital := "Mariehamn", alpha2code := "AX",
    alt_spellings := ["AX", "Aaland", "Aland", "Ahvenanmaa"],
    currencies := [sampleCurrencyEUR],
    flag := "http://assets.promptapi.com/flags/AX.svg",
    languages := [sampleLanguageSwedish],
    name := "Åland Islands", population := 28875,
    subregion := "Northern Europe", timezones := ["UTC+02:00"],
    area := some 1580, latitude := 60116667 / 1000000, longitude := 199 / 10 }

/-- The weather snapshot from the `models.py` docstring example. -/
def sampleWeather : WeatherInfoDTO :=
  { temp := 1392 / 100, pressure := 1023, humidity := 54,
    wind_speed := 463 / 100, description := "scattered clouds",
    visibility := 10000, timezone := 7200,
    latitude := 4434 / 100, longitude := 1099 / 100 }

/-- The exchange rates from the `models.py` docstring example. -/
def sampleRates : CurrencyRatesDTO :=
  { base := "RUB", date := "2022-09-14", rates := [("EUR", 16503 / 1000000)] }

/-- A news item (shape of the `models.py` docstring example). -/
def sampleNews : NewsDTO :=
  { source := "USA Today", title := "Purdue vs. Tennessee",
    description := none, published_at := "2024-03-31T14:03:57Z",
    url := "https://theathletic.com/5380366/" }

/-- The aggregate report built from the docstring examples. -/
def sampleInfo : LocationInfoDTO :=
  buildLocationInfo sampleCountry sampleWeather sampleRates []

theorem joinSep_append_single (sep x : String) :
    ∀ (l : List String), l ≠ [] → joinSep sep (l ++ [x]) = joinSep sep l ++ sep ++ x
  | [], h => absurd rfl h
  | [a], _ => rfl
  | a :: b :: rest, _ => by
    have ih := joinSep_append_single sep x (b :: rest) (by simp)
    have e1 : joinSep sep ((a :: b :: rest) ++ [x])
        = a ++ sep ++ joinSep sep ((b :: rest) ++ [x]) := rfl
    have e2 : joinSep sep (a :: b :: rest) = a ++ sep ++ joinSep sep (b :: rest) := rfl
    rw [e1, e2, ih]
    simp [String.append_assoc]

theorem pad3_length : ∀ m, m < 1000 → (pad3 m).length = 3 := by decide

theorem repr_length_le_three : ∀ m, m < 1000 → (toString m).length ≤ 3 := by decide

/-- C1: every key of a built report's `currency_rates` is the code of
some currency in its country's `currencies` set; a currency whose code
has no rate in the source is simply absent from the mapping (witnessed
by an empty-rates build), not an error. -/
theorem claim_C1_currency_rates_subset (country : CountryDTO)
    (weather : WeatherInfoDTO) (rates : CurrencyRatesDTO) (news : List NewsDTO)
    (p : String × ℚ)
    (hp : p ∈ (buildLocationInfo country weather rates news).currency_rates) :
    (∃ c ∈ country.currencies, c.code = p.1) ∧
    (buildLocationInfo sampleCountry sampleWeather
        { base := "RUB", date := "2022-09-14", rates := [] } []).currency_rates = [] := by
  constructor
  · simp only [buildLocationInfo, List.mem_filterMap, Option.map_eq_some'] at hp
    obtain ⟨c, hc, r, _, hpr⟩ := hp
    exact ⟨c, hc, by rw [← hpr]⟩
  · rfl

/-- C1 witness: instantiated at the Åland example, whose single rate key
`"EUR"` is indeed the code of a currency of the country. -/
theorem claim_C1_witness :
    (∃ c ∈ sampleCountry.currencies, c.code = ("EUR", (16503 / 1000000 : ℚ)).1) ∧
    (buildLocationInfo sampleCountry sampleWeather
        { base := "RUB", date := "2022-09-14", rates := [] } []).currency_rates = [] :=
  claim_C1_currency_rates_subset sampleCountry sampleWeather sampleRates []
    ("EUR", 16503 / 1000000)
    (by simp [sampleInfo, buildLocationInfo, sampleCountry, sampleRates,
              sampleCurrencyEUR, lookupRate])

/-- C2 counterexample: `CountryDTO` does not validate `alpha2code`
length — construction with the length-1 code `"X"` succeeds (and stores
a code of length 1), so constructing a Country with a length-1 code does
not fail with a ValidationError. -/
theorem claim_C2_counterexample :
    (mkCountryDTO "Mariehamn" "X" [] [] "" [] "Åland Islands" 28875 ""
        [] none 0 0).toOption.map (fun c => c.alpha2code.length) = some 1 := rfl

/-- C2 (amended): the length-2 contract belongs to `LocationDTO`, whose
`alpha2code` field carries `min_length=2, max_length=2`: construction
succeeds exactly when the code has length 2, every successfully
constructed `LocationDTO` has a length-2 code, and `CountryDTO` accepts
an `alpha2code` of any length. -/
theorem claim_C2_location_code_length (capital code : String) :
    ((mkLocationDTO capital code).isOk ↔ code.length = 2) ∧
    (∀ loc, mkLocationDTO capital code = .ok loc → loc.alpha2code.length = 2) ∧
    (mkCountryDTO capital code [] [] "" [] "" 0 "" [] none 0 0).isOk = true := by
  refine ⟨?_, ?_, rfl⟩
  · unfold mkLocationDTO
    split_ifs with h1 h2
    · simp [Except.isOk, Except.toBool]
      omega
    · simp [Except.isOk, Except.toBool]
      omega
    · simp [Except.isOk, Except.toBool]
      omega
  · intro loc hloc
    unfold mkLocationDTO at hloc
    split_ifs at hloc with h1 h2
    cases hloc
    show code.length = 2
    omega

/-- C3 counterexample: `CountryDTO.population` is a plain `int` field —
construction with population `-1` succeeds and stores `-1`, so a
negative population does not fail with a ValidationError. -/
theorem claim_C3_counterexample :
    (mkCountryDTO "Mariehamn" "AX" [] [] "" [] "Åland Islands" (-1) ""
        [] none 0 0).toOption.map (fun c => c.population) = some (-1) := rfl

/-- C3 (amended): construction of a Country never validates the sign of
`population`: any integer population, negative included, is accepted and
stored unchanged. -/
theorem claim_C3_population_unchecked (capital alpha2code : String)
    (alt_spellings : List String) (currencies : List CurrencyInfoDTO)
    (flag : String) (languages : List LanguagesInfoDTO) (name : String)
    (population : Int) (subregion : String) (timezones : List String)
    (area : Option ℚ) (latitude longitude : ℚ) :
    ∃ c, mkCountryDTO capital alpha2code alt_spellings currencies flag
        languages name population subregion timezones area latitude
        longitude = .ok c ∧ c.population = population :=
  ⟨_, rfl, rfl⟩

theorem groupThousands_struct (n : Nat) :
    ∃ (hd : Nat) (tl : List Nat),
      Renderer.groupThousands n = joinSep "." (toString hd :: tl.map pad3) ∧
      hd < 1000 ∧ (∀ m ∈ tl, m < 1000) ∧
      tl.foldl (fun acc m => acc * 1000 + m) hd = n := by
  induction n using Nat.strong_induction_on with
  | _ n ih =>
    by_cases h : n < 1000
    · refine ⟨n, [], ?_, h, by simp, by simp⟩
      rw [Renderer.groupThousands]
      simp [h, joinSep]
    · obtain ⟨hd, tl, h1, h2, h3, h4⟩ :=
        ih (n / 1000) (Nat.div_lt_self (by omega) (by omega))
      refine ⟨hd, tl ++ [n % 1000], ?_, h2, ?_, ?_⟩
      · rw [Renderer.groupThousands]
        simp only [h, dite_false]
        have e : toString hd :: List.map pad3 (tl ++ [n % 1000])
            = (toString hd :: List.map pad3 tl) ++ [pad3 (n % 1000)] := by simp
        rw [e, joinSep_append_single _ _ _ (by simp), h1]
      · intro m hm
        rcases List.mem_append.mp hm with hm1 | hm2
        · exact h3 m hm1
        · simp at hm2
          omega
      · rw [List.foldl_append]
        simp only [List.foldl]
        rw [h4]
        omega

/-- C4: each `(code, rate)` pair renders as `"<code> = <amount> руб."`
joined with `", "`; the amount is the rate quantized to hundredths by
decimal round-half-up (the quantized value is within a half-cent of the
rate, and an exact half-cent tie rounds up, away from zero); rates
`0.125`, `0.005` and `2.0` render as `"0.13"`, `"0.01"` and `"2.00"`. -/
theorem claim_C4_currency_rounding (info : LocationInfoDTO) (q : ℚ)
    (hq : 0 ≤ q) :
    Renderer.format_currency_rates info
      = joinSep ", " (info.currency_rates.map
          (fun p => p.1 ++ " = " ++ Renderer.format_rate p.2 ++ " руб.")) ∧
    ((Renderer.decimalQuantizeHalfUp q : ℚ) - 1 / 2 ≤ 100 * q ∧
      100 * q < (Renderer.decimalQuantizeHalfUp q : ℚ) + 1 / 2) ∧
    Renderer.format_rate (1 / 8) = "0.13" ∧
    Renderer.format_rate (1 / 200) = "0.01" ∧
    Renderer.format_rate 2 = "2.00" := by
  refine ⟨rfl, ?_, ?_, ?_, ?_⟩
  · rw [Renderer.decimalQuantizeHalfUp, if_neg (not_lt.mpr hq)]
    have h1 := Int.floor_le (q * 100 + 1 / 2)
    have h2 := Int.lt_floor_add_one (q * 100 + 1 / 2)
    constructor <;> linarith
  · norm_num [Renderer.format_rate, Renderer.decimalQuantizeHalfUp, pad2]
    decide
  · norm_num [Renderer.format_rate, Renderer.decimalQuantizeHalfUp, pad2]
    decide
  · norm_num [Renderer.format_rate, Renderer.decimalQuantizeHalfUp, pad2]
    decide

/-- C4 witness: the theorem instantiated at the Åland report and the
rate 2. -/
theorem claim_C4_witness :
    Renderer.format_currency_rates sampleInfo
      = joinSep ", " (sampleInfo.currency_rates.map
          (fun p => p.1 ++ " = " ++ Renderer.format_rate p.2 ++ " руб.")) ∧
    ((Renderer.decimalQuantizeHalfUp 2 : ℚ) - 1 / 2 ≤ 100 * 2 ∧
      100 * 2 < (Renderer.decimalQuantizeHalfUp 2 : ℚ) + 1 / 2) ∧
    Renderer.format_rate (1 / 8) = "0.13" ∧
    Renderer.format_rate (1 / 200) = "0.01" ∧
    Renderer.format_rate 2 = "2.00" :=
  claim_C4_currency_rounding sampleInfo 2 zero_le_two

/-- C5: for a non-negative population the formatter emits the decimal
digits grouped in threes from the right, separated by periods: the
output is a period-joined list of base-1000 groups, the leading group is
below 1000 (at most 3 digits) and every later group is zero-padded to
exactly 3 digits, the groups reassemble to the population, and 28875,
999 and 1000000 render as "28.875", "999" and "1.000.000". -/
theorem claim_C5_population_grouping (info : LocationInfoDTO)
    (hpop : 0 ≤ info.location.population) :
    Renderer.format_population info
        = Renderer.groupThousands info.location.population.toNat ∧
    (∃ (hd : Nat) (tl : List Nat),
      Renderer.groupThousands info.location.population.toNat
          = joinSep "." (toString hd :: tl.map pad3) ∧
      hd < 1000 ∧ (toString hd).length ≤ 3 ∧
      (∀ m ∈ tl, m < 1000 ∧ (pad3 m).length = 3) ∧
      tl.foldl (fun acc m => acc * 1000 + m) hd
          = info.location.population.toNat) ∧
    Renderer.format_population sampleInfo = "28.875" ∧
    Renderer.format_population { sampleInfo with
        location := { sampleCountry with population := 999 } } = "999" ∧
    Renderer.format_population { sampleInfo with
        location := { sampleCountry with population := 1000000 } } = "1.000.000" := by
  refine ⟨?_, ?_, ?_, ?_, ?_⟩
  · rw [Renderer.format_population, if_neg (not_lt.mpr hpop)]
  · obtain ⟨hd, tl, h1, h2, h3, h4⟩ :=
      groupThousands_struct info.location.population.toNat
    exact ⟨hd, tl, h1, h2, repr_length_le_three hd h2,
      fun m hm => ⟨h3 m hm, pad3_length m (h3 m hm)⟩, h4⟩
  · have e : Renderer.format_population sampleInfo
        = Renderer.groupThousands 28875 := rfl
    rw [e, Renderer.groupThousands, Renderer.groupThousands]
    norm_num [pad3]
    decide
  · have e : Renderer.format_population { sampleInfo with
        location := { sampleCountry with population := 999 } }
        = Renderer.groupThousands 999 := rfl
    rw [e, Renderer.groupThousands]
    norm_num
    decide
  · have e : Renderer.format_population { sampleInfo with
        location := { sampleCountry with population := 1000000 } }
        = Renderer.groupThousands 1000000 := rfl
    rw [e, Renderer.groupThousands, Renderer.groupThousands, Renderer.groupThousands]
    norm_num [pad3]
    decide

/-- C5 witness: the theorem instantiated at the Åland report, whose
population 28875 is non-negative. -/
theorem claim_C5_witness :
    Renderer.format_population sampleInfo
        = Renderer.groupThousands sampleInfo.location.population.toNat ∧
    (∃ (hd : Nat) (tl : List Nat),
      Renderer.groupThousands sampleInfo.location.population.toNat
          = joinSep "." (toString hd :: tl.map pad3) ∧
      hd < 1000 ∧ (toString hd).length ≤ 3 ∧
      (∀ m ∈ tl, m < 1000 ∧ (pad3 m).length = 3) ∧
      tl.foldl (fun acc m => acc * 1000 + m) hd
          = sampleInfo.location.population.toNat) ∧
    Renderer.format_population sampleInfo = "28.875" ∧
    Renderer.format_population { sampleInfo with
        location := { sampleCountry with population := 999 } } = "999" ∧
    Renderer.format_population { sampleInfo with
        location := { sampleCountry with population := 1000000 } } = "1.000.000" :=
  claim_C5_population_grouping sampleInfo (by decide)

/-- C6: whenever `floor(offset_seconds / 3600)` is a single non-negative
digit, the timezone formatter returns `"UTC+0<hours>:00"` — a 9-character
string with the hour digit spliced between `"UTC+0"` and `":00"`; offsets
7200 and 0 render as `"UTC+02:00"` and `"UTC+00:00"`. -/
theorem claim_C6_timezone_format (info : LocationInfoDTO)
    (h0 : 0 ≤ Int.fdiv info.weather.timezone 3600)
    (h9 : Int.fdiv info.weather.timezone 3600 ≤ 9) :
    Renderer.format_timezone info
        = "UTC+0" ++ toString (Int.fdiv info.weather.timezone 3600) ++ ":00" ∧
    (Renderer.format_timezone info).length = 9 ∧
    Renderer.format_timezone { sampleInfo with weather := sampleWeather }
        = "UTC+02:00" ∧
    Renderer.format_timezone { sampleInfo with
        weather := { sampleWeather with timezone := 0 } } = "UTC+00:00" := by
  have e : Renderer.format_timezone info
      = "UTC+0" ++ toString (Int.fdiv info.weather.timezone 3600) ++ ":00" := rfl
  have hlen : (toString (Int.fdiv info.weather.timezone 3600)).length = 1 := by
    set h := Int.fdiv info.weather.timezone 3600 with hh
    interval_cases h <;> decide
  refine ⟨e, ?_, by decide, by decide⟩
  rw [e]
  simp only [String.length_append, hlen]
  decide

/-- C6 witness: the theorem instantiated at the Åland report, whose UTC
offset 7200 has hour value 2. -/
theorem claim_C6_witness :
    Renderer.format_timezone { sampleInfo with weather := sampleWeather }
        = "UTC+0"
          ++ toString (Int.fdiv
              ({ sampleInfo with weather := sampleWeather } :
                LocationInfoDTO).weather.timezone 3600)
          ++ ":00" ∧
    (Renderer.format_timezone { sampleInfo with weather := sampleWeather }).length = 9 ∧
    Renderer.format_timezone { sampleInfo with weather := sampleWeather }
        = "UTC+02:00" ∧
    Renderer.format_timezone { sampleInfo with
        weather := { sampleWeather with timezone := 0 } } = "UTC+00:00" :=
  claim_C6_timezone_format { sampleInfo with weather := sampleWeather }
    (by decide) (by decide)

/-- C7: the renderer returns exactly six text blocks in fixed order,
alternating section title and tabulated grid: country title, country
grid, capital title, capital grid, weather title, weather grid. -/
theorem claim_C7_six_blocks (now : Int) (info : LocationInfoDTO) :
    Renderer.render now info =
      ["Информация о стране", tabulate (Renderer.locationRows now info),
       "Информация о столице", tabulate (Renderer.capitalRows info),
       "Информация о погоде", tabulate (Renderer.weatherRows info)] ∧
    (Renderer.render now info).length = 6 :=
  ⟨rfl, rfl⟩

/-- C8: for the Åland input (capital "Mariehamn", code "AX", currencies
containing EUR, languages containing Swedish/svenska, population 28875,
RUB-based rates with EUR at 0.016503) the rendered currency line is
"EUR = 0.02 руб." and the rendered languages line is
"Swedish (svenska)". -/
theorem claim_C8_end_to_end :
    Renderer.format_currency_rates
        (buildLocationInfo sampleCountry sampleWeather sampleRates [])
      = "EUR = 0.02 руб." ∧
    Renderer.format_languages
        (buildLocationInfo sampleCountry sampleWeather sampleRates [])
      = "Swedish (svenska)" := by
  constructor
  · have e : Renderer.format_currency_rates
        (buildLocationInfo sampleCountry sampleWeather sampleRates [])
        = "EUR" ++ " = " ++ Renderer.format_rate (16503 / 1000000) ++ " руб." := by
      norm_num [buildLocationInfo, sampleCountry, sampleRates, sampleCurrencyEUR,
        lookupRate, Renderer.format_currency_rates, joinSep]
    rw [e]
    norm_num [Renderer.format_rate, Renderer.decimalQuantizeHalfUp, pad2]
    decide
  · norm_num [buildLocationInfo, sampleCountry, sampleLanguageSwedish,
      Renderer.format_languages, joinSep]
    decide

/-- C9: rendering the same report twice is deterministic — with the
clock fixed the two outputs (the languages line included, since one
report value carries one fixed iteration order of the language set) are
identical; moreover every block except the country grid (the only block
containing the current-time row) equals a clock-independent value, so it
is unchanged across runs at different times. -/
theorem claim_C9_idempotent_render (info : LocationInfoDTO) (now now2 : Int) :
    (Renderer.render now info).length = 6 ∧
    (Renderer.render now info).get? 0 = some "Информация о стране" ∧
    (Renderer.render now info).get? 2 = some "Информация о столице" ∧
    (Renderer.render now info).get? 3
        = some (tabulate (Renderer.capitalRows info)) ∧
    (Renderer.render now info).get? 4 = some "Информация о погоде" ∧
    (Renderer.render now info).get? 5
        = some (tabulate (Renderer.weatherRows info)) ∧
    (now = now2 → Renderer.render now info = Renderer.render now2 info) := by
  refine ⟨rfl, rfl, rfl, rfl, rfl, rfl, ?_⟩
  rintro rfl
  rfl

/-- C10: the renderer never reads the news list — two reports equal in
every field but `news` render to identical blocks at any fixed clock. -/
theorem claim_C10_news_noninterference (now : Int) (i1 i2 : LocationInfoDTO)
    (hl : i1.location = i2.location) (hw : i1.weather = i2.weather)
    (hc : i1.currency_rates = i2.currency_rates) :
    Renderer.render now i1 = Renderer.render now i2 := by
  cases i1
  cases i2
  cases hl
  cases hw
  cases hc
  rfl

/-- C10 witness: the Åland report with an empty news list renders the
same blocks as the same report with one news item. -/
theorem claim_C10_witness :
    Renderer.render 0 sampleInfo
      = Renderer.render 0 { sampleInfo with news := [sampleNews] } :=
  claim_C10_news_noninterference 0 sampleInfo
    { sampleInfo with news := [sampleNews] } rfl rfl rfl
